import Mathlib

/-!
Verification development for the `financas` personal finance tracker
(`src/app.py`).  The file shallowly embeds the three components the spec
describes — the Transaction Writer (form submission in `aba_add`), the
Aggregator (the dashboard in `aba_dash`), and the detail listing
(`df_show` / extrato) — and proves or refutes the frozen claims about them.

Modelling conventions:
* Currency amounts (Python floats in the source) are modelled as rationals
  `ℚ`; Python's `round(x, 2)` is modelled by `round2` below.
* Calendar dates are a `(year, month, day)` structure;
  `dateutil.relativedelta(months=i)` is modelled by `addMonths`, which
  clamps the day to the length of the target month exactly as
  `relativedelta` does.
* The Mongo store is a list of documents; `insert_many` appends.
* The `uuid.uuid4()` group identifier is an externally supplied opaque
  string parameter (its freshness is not modelled).
* The nondeterministic `criado_em` timestamp carries no claim and is
  omitted from the document model.
-/

namespace Financas

/-- A calendar date, as used for the `data` field of a transaction. -/
structure Date where
  year : Nat
  month : Nat
  day : Nat
deriving DecidableEq

/-- Leap year test of the Gregorian calendar (as in Python's `calendar`). -/
def isLeap (y : Nat) : Bool :=
  y % 4 == 0 && (y % 100 != 0 || y % 400 == 0)

/-- Number of days of month `m` of year `y`. -/
def daysInMonth (y m : Nat) : Nat :=
  if m == 2 then (if isLeap y then 29 else 28)
  else if m == 4 || m == 6 || m == 9 || m == 11 then 30
  else 31

/-- Model of `data_mov + relativedelta(months=i)`: advance `d` by `i`
calendar months, clamping the day to the last day of the target month
(the behaviour of `dateutil.relativedelta`). -/
def addMonths (d : Date) (i : Nat) : Date :=
  let t := d.month - 1 + i
  let y := d.year + t / 12
  let m := t % 12 + 1
  { year := y, month := m, day := min d.day (daysInMonth y m) }

/-- Numeric key giving the chronological order on dates (the order pandas
uses when comparing `datetime.date` values). -/
def dateKey (d : Date) : Nat :=
  d.year * 10000 + d.month * 100 + d.day

/-- Model of Python's `round(q, 2)` on amounts: round `100 * q` to the
nearest integer and divide back by `100`. -/
def round2 (q : ℚ) : ℚ :=
  ((round (100 * q) : ℤ) : ℚ) / 100

/-- A persisted transaction document, as built in the `submitted` branch of
`form_transacao` (`src/app.py` lines 114-126). -/
structure Documento where
  data : Date
  descricao : String
  categoria : String
  valor : ℚ
  tipo : String
  pagamento : String
  parcela_atual : Nat
  total_parcelas : Nat
  group_id : String
  tags : List String
deriving DecidableEq

/-- The state of the form when the submit button is pressed.
`valor_total = none` models the `st.number_input` being left empty; the
widget's `min_value=0.0` guarantees any present value is `≥ 0`. -/
structure FormInput where
  data_mov : Date
  valor_total : Option ℚ
  descricao : String
  categoria : String
  tags_selecionadas : List String
  eh_despesa : Bool
  forma_pagamento : String
  qtd_parcelas : Nat
deriving DecidableEq

/-- The installment documents built by the loop at `src/app.py`
lines 106-127 for a submission whose amount is `a`. -/
def buildDocs (f : FormInput) (a : ℚ) (id_grupo : String) : List Documento :=
  let tipo_db := if f.eh_despesa then "Despesa" else "Receita"
  let valor_parcela := a / (f.qtd_parcelas : ℚ)
  (List.range f.qtd_parcelas).map (fun i =>
    { data := addMonths f.data_mov i
      descricao :=
        if f.qtd_parcelas > 1 then
          f.descricao ++ " (" ++ toString (i + 1) ++ "/" ++ toString f.qtd_parcelas ++ ")"
        else f.descricao
      categoria := f.categoria
      valor := round2 valor_parcela
      tipo := tipo_db
      pagamento := f.forma_pagamento
      parcela_atual := i + 1
      total_parcelas := f.qtd_parcelas
      group_id := id_grupo
      tags := f.tags_selecionadas })

/-- Outcome of pressing submit (`src/app.py` lines 95-129): either the
"Insira um valor." warning, or the list of documents passed to
`insert_many`. -/
inductive SubmitResult where
  | warning
  | success (docs : List Documento)
deriving DecidableEq

/-- The submit handler: warn when the amount is absent, otherwise build
the installment documents. -/
def form_submit (f : FormInput) (id_grupo : String) : SubmitResult :=
  match f.valor_total with
  | none => SubmitResult.warning
  | some a => SubmitResult.success (buildDocs f a id_grupo)

/-- The documents actually written by a submission (none on a warning). -/
def docsOf : SubmitResult → List Documento
  | SubmitResult.warning => []
  | SubmitResult.success l => l

/-- Effect of one submission on the `transacoes` collection:
`insert_many` appends the built documents (nothing on a warning). -/
def applySubmit (store : List Documento) (f : FormInput) (id_grupo : String) :
    List Documento :=
  store ++ docsOf (form_submit f id_grupo)

/-! ## Aggregator (`aba_dash`, `src/app.py` lines 142-255) -/

/-- The `tags` field of a loaded document as seen by `check_tags`: either a
proper list of strings, or anything that fails `isinstance(row_tags, list)`
(a missing field surfaces as `NaN` in the data frame, hence not a list). -/
inductive TagsField where
  | list (l : List String)
  | notList
deriving DecidableEq

/-- A transaction record as loaded from the store into the data frame.
`tipo = none` models a record whose `tipo` field is missing or null. -/
structure RecordRow where
  data : Date
  descricao : String
  categoria : String
  valor : ℚ
  tipo : Option String
  tags : TagsField
deriving DecidableEq

/-- Backward-compatibility coercion at load time (`src/app.py` lines
153-157): a missing `tipo` becomes `"Despesa"`. -/
def coerceTipo (r : RecordRow) : RecordRow :=
  { r with tipo := some (r.tipo.getD "Despesa") }

/-- The period selection returned by `st.date_input`: either a complete
two-element `(start, end)` tuple, or an incomplete selection (anything
that is not a two-element tuple). -/
inductive Intervalo where
  | single (d : Date)
  | range (s e : Date)
deriving DecidableEq

/-- The date filter (`src/app.py` lines 171-173): applied only when the
period is a complete two-element tuple, keeping `s <= data <= e`. -/
def applyDateFilter : Intervalo → List RecordRow → List RecordRow
  | Intervalo.single _, rows => rows
  | Intervalo.range s e, rows =>
      rows.filter (fun r =>
        decide (dateKey s ≤ dateKey r.data) && decide (dateKey r.data ≤ dateKey e))

/-- Model of `check_tags` (`src/app.py` lines 176-178): `False` for a
non-list value, otherwise non-empty intersection with the filter set. -/
def check_tags (filtro_tags : List String) : TagsField → Bool
  | TagsField.notList => false
  | TagsField.list l => l.any (fun x => decide (x ∈ filtro_tags))

/-- The tag filter (`src/app.py` lines 175-179): skipped entirely when the
selected tag list is empty (`if filtro_tags:`). -/
def applyTagFilter (filtro_tags : List String) (rows : List RecordRow) :
    List RecordRow :=
  if filtro_tags.isEmpty then rows
  else rows.filter (fun r => check_tags filtro_tags r.tags)

/-- The filtered data frame `df` used for all KPIs, charts and the detail
listing: type coercion at load, then date filter, then tag filter. -/
def filteredRows (rows : List RecordRow) (intervalo : Intervalo)
    (filtro_tags : List String) : List RecordRow :=
  applyTagFilter filtro_tags (applyDateFilter intervalo (rows.map coerceTipo))

/-- `df_rec = df[df['tipo'] == 'Receita']` (`src/app.py` line 185). -/
def df_rec (df : List RecordRow) : List RecordRow :=
  df.filter (fun r => r.tipo == some "Receita")

/-- `df_desp = df[df['tipo'] == 'Despesa']` (`src/app.py` line 186). -/
def df_desp (df : List RecordRow) : List RecordRow :=
  df.filter (fun r => r.tipo == some "Despesa")

/-- `total_rec = df_rec['valor'].sum()` (`src/app.py` line 188). -/
def total_rec (df : List RecordRow) : ℚ :=
  ((df_rec df).map (fun r => r.valor)).sum

/-- `total_desp = df_desp['valor'].sum()` (`src/app.py` line 189). -/
def total_desp (df : List RecordRow) : ℚ :=
  ((df_desp df).map (fun r => r.valor)).sum

/-- `saldo = total_rec - total_desp` (`src/app.py` line 190). -/
def saldo (df : List RecordRow) : ℚ :=
  total_rec df - total_desp df

/-- One slice of the expense-only category pie chart
(`px.pie(df_desp, values='valor', names='categoria')`,
`src/app.py` line 227): the summed expense amount of category `c`. -/
def catTotal (df : List RecordRow) (c : String) : ℚ :=
  (((df_desp df).filter (fun r => r.categoria == c)).map (fun r => r.valor)).sum

/-! ### Detail listing (`df_show`, `src/app.py` lines 236-253) -/

/-- Zero-pad a number to two digits, as `%d` / `%m` of `strftime`. -/
def pad2 (n : Nat) : String :=
  if n < 10 then "0" ++ toString n else toString n

/-- Zero-pad a year to four digits, as `%Y` of `strftime`. -/
def pad4 (n : Nat) : String :=
  if n < 10 then "000" ++ toString n
  else if n < 100 then "00" ++ toString n
  else if n < 1000 then "0" ++ toString n
  else toString n

/-- `df_show['data'] = df_show['data'].dt.strftime('%d/%m/%Y')`
(`src/app.py` line 237). -/
def formatDate (d : Date) : String :=
  pad2 d.day ++ "/" ++ pad2 d.month ++ "/" ++ pad4 d.year

/-- Python's `f"{v:.2f}"` on an amount: the value rounded to cents and
printed with two decimals. -/
def fmt2 (v : ℚ) : String :=
  let c : ℤ := round (100 * v)
  (if c < 0 then "-" else "") ++ toString (c.natAbs / 100) ++ "." ++ pad2 (c.natAbs % 100)

/-- `formata_valor` (`src/app.py` lines 240-244): signed currency string,
`+` for `Receita` and `-` otherwise. -/
def formata_valor (tipo : String) (valor : ℚ) : String :=
  let val := "R$ " ++ fmt2 valor
  if tipo == "Receita" then "+ " ++ val else "- " ++ val

/-- A row of the rendered extrato table: the `data` column has already
been replaced by its `dd/mm/yyyy` string at this point. -/
structure ExtratoRow where
  data : String
  tipo : String
  descricao : String
  categoria : String
  valor_fmt : String
deriving DecidableEq

/-- Lexicographic order on code points of two character lists — the order
Python (and hence pandas `sort_values`) uses on `str` values. -/
def strLtb : List Char → List Char → Bool
  | [], [] => false
  | [], _ :: _ => true
  | _ :: _, [] => false
  | a :: as, b :: bs =>
      if a.toNat < b.toNat then true
      else if b.toNat < a.toNat then false
      else strLtb as bs

/-- String comparison used by `sort_values` on the formatted date column. -/
def strLt (a b : String) : Bool :=
  strLtb a.data b.data

/-- Insert one row into a list already sorted descending by the `data`
string column. -/
def insertDescRow (x : ExtratoRow) : List ExtratoRow → List ExtratoRow
  | [] => [x]
  | y :: ys =>
      if strLt y.data x.data || y.data == x.data then x :: y :: ys
      else y :: insertDescRow x ys

/-- Model of `sort_values(by='data', ascending=False)` on the formatted
data frame (`src/app.py` line 250): sort descending by the string key. -/
def sortDescData (l : List ExtratoRow) : List ExtratoRow :=
  l.foldr insertDescRow []

/-- The rendered extrato (`src/app.py` lines 236-253): format every row,
then sort descending by the (already string-valued) `data` column. -/
def extrato (df : List RecordRow) : List ExtratoRow :=
  sortDescData (df.map (fun r =>
    { data := formatDate r.data
      tipo := r.tipo.getD "Despesa"
      descricao := r.descricao
      categoria := r.categoria
      valor_fmt := formata_valor (r.tipo.getD "Despesa") r.valor }))

/-! ### Dashboard rendering states -/

/-- What is rendered below the KPI row: either the charts plus the extrato
table, or the `st.warning("Nenhum dado encontrado.")` branch taken when
the filtered frame is empty (`src/app.py` lines 201, 254-255). -/
inductive DashBody where
  | content (rows : List ExtratoRow)
  | nenhumDado
deriving DecidableEq

/-- The dashboard output as a whole: `st.info("Sem dados.")` when the
store holds no record at all (`src/app.py` lines 147-148), otherwise the
three KPI totals plus a body. -/
inductive DashOutput where
  | semDados
  | dashboard (entradas saidas saldoPeriodo : ℚ) (body : DashBody)
deriving DecidableEq

/-- The dashboard tab (`src/app.py` lines 142-255) as a function of the
loaded records and the two filters. -/
def aba_dash (dados : List RecordRow) (intervalo : Intervalo)
    (filtro_tags : List String) : DashOutput :=
  if dados.isEmpty then DashOutput.semDados
  else
    DashOutput.dashboard
      (total_rec (filteredRows dados intervalo filtro_tags))
      (total_desp (filteredRows dados intervalo filtro_tags))
      (saldo (filteredRows dados intervalo filtro_tags))
      (if (filteredRows dados intervalo filtro_tags).isEmpty then DashBody.nenhumDado
       else DashBody.content (extrato (filteredRows dados intervalo filtro_tags)))

/-! ## Helper lemmas -/

/-- The rounding error of `round2` is at most half a cent. -/
lemma round2_err (x : ℚ) : |round2 x - x| ≤ 1 / 200 := by
  have h : |100 * x - ((round (100 * x) : ℤ) : ℚ)| ≤ 1 / 2 := abs_sub_round (100 * x)
  rw [abs_le] at h ⊢
  unfold round2
  constructor <;> [linarith [h.1, h.2]; linarith [h.1, h.2]]

/-- Rounding a nonnegative amount to cents stays nonnegative. -/
lemma round2_nonneg {x : ℚ} (h : 0 ≤ x) : 0 ≤ round2 x := by
  unfold round2
  have hfl : (0 : ℤ) ≤ round (100 * x) := by
    rw [round_eq]
    refine Int.le_floor.mpr ?_
    push_cast
    linarith
  have : (0 : ℚ) ≤ ((round (100 * x) : ℤ) : ℚ) := by exact_mod_cast hfl
  positivity

/-- Summing a constant over a list multiplies it by the length. -/
lemma sum_map_const {α : Type} (l : List α) (c : ℚ) :
    (l.map (fun _ => c)).sum = (l.length : ℚ) * c := by
  induction l with
  | nil => simp
  | cons x xs ih =>
    simp only [List.map_cons, List.sum_cons, ih, List.length_cons]
    push_cast
    ring

/-- The sum of a projection over a filtered list, written as a sum of an
`if` over the whole list. -/
lemma sum_map_filter_ite (p : RecordRow → Bool) (l : List RecordRow) :
    ((l.filter p).map (fun r => r.valor)).sum
      = (l.map (fun r => if p r then r.valor else 0)).sum := by
  induction l with
  | nil => rfl
  | cons x xs ih =>
    by_cases h : p x <;> simp [List.filter_cons, h, ih]

/-- The date filter distributes over list append. -/
lemma applyDateFilter_append (intervalo : Intervalo) (xs ys : List RecordRow) :
    applyDateFilter intervalo (xs ++ ys)
      = applyDateFilter intervalo xs ++ applyDateFilter intervalo ys := by
  cases intervalo with
  | single d => rfl
  | range s e => simp [applyDateFilter, List.filter_append]

/-- The tag filter distributes over list append. -/
lemma applyTagFilter_append (filtro : List String) (xs ys : List RecordRow) :
    applyTagFilter filtro (xs ++ ys)
      = applyTagFilter filtro xs ++ applyTagFilter filtro ys := by
  unfold applyTagFilter
  by_cases h : filtro.isEmpty <;> simp [h, List.filter_append]

/-- The whole filter pipeline splits off a final appended record. -/
lemma filteredRows_append (rows : List RecordRow) (r : RecordRow)
    (intervalo : Intervalo) (filtro : List String) :
    filteredRows (rows ++ [r]) intervalo filtro
      = filteredRows rows intervalo filtro
        ++ applyTagFilter filtro (applyDateFilter intervalo [coerceTipo r]) := by
  unfold filteredRows
  rw [List.map_append, applyDateFilter_append, applyTagFilter_append]
  rfl

/-- A non-empty list is not `isEmpty`. -/
lemma isEmpty_false_of_ne_nil {α : Type} {l : List α} (h : l ≠ []) :
    l.isEmpty = false := by
  cases l with
  | nil => exact absurd rfl h
  | cons a as => rfl

/-! ## Claims -/

/-- C8: a submission whose amount is absent produces the validation
warning, writes zero documents, and leaves the transaction store
unchanged. -/
theorem C8_missing_amount_no_write (f : FormInput) (id_grupo : String)
    (store : List Documento) (h : f.valor_total = none) :
    form_submit f id_grupo = SubmitResult.warning ∧
    docsOf (form_submit f id_grupo) = [] ∧
    applySubmit store f id_grupo = store := by
  simp [form_submit, h, docsOf, applySubmit]

/-- A concrete form with its amount left empty. -/
def C8form : FormInput :=
  { data_mov := Date.mk 2024 5 1, valor_total := none, descricao := "conta",
    categoria := "Contas Fixas", tags_selecionadas := [], eh_despesa := true,
    forma_pagamento := "Pix", qtd_parcelas := 1 }

/-- Witness for C8 at a concrete empty-amount submission. -/
theorem C8_missing_amount_no_write_witness :
    form_submit C8form "g" = SubmitResult.warning ∧
    docsOf (form_submit C8form "g") = [] ∧
    applySubmit [] C8form "g" = [] :=
  C8_missing_amount_no_write C8form "g" [] rfl

/-- C9: for every transaction set and every combination of date-range and
tag filters, the dashboard balance equals the sum of the amounts of the
`Receita` records minus the sum of the amounts of the `Despesa` records of
the filtered set. -/
theorem C9_saldo_eq_income_minus_expense (rows : List RecordRow)
    (intervalo : Intervalo) (filtro_tags : List String) :
    saldo (filteredRows rows intervalo filtro_tags)
      = ((filteredRows rows intervalo filtro_tags).map
          (fun r => if r.tipo == some "Receita" then r.valor else 0)).sum
        - ((filteredRows rows intervalo filtro_tags).map
          (fun r => if r.tipo == some "Despesa" then r.valor else 0)).sum := by
  unfold saldo total_rec total_desp df_rec df_desp
  rw [sum_map_filter_ite, sum_map_filter_ite]

/-- C10: when the period selection is not a complete two-element tuple,
the date filter is skipped: the dashboard frame is the loaded set (type
coercion aside), only the tag filter applies, and with no tag filter
every loaded record is kept. -/
theorem C10_incomplete_period_no_date_filter (rows : List RecordRow)
    (d : Date) (filtro_tags : List String) :
    applyDateFilter (Intervalo.single d) rows = rows ∧
    filteredRows rows (Intervalo.single d) filtro_tags
      = applyTagFilter filtro_tags (rows.map coerceTipo) ∧
    filteredRows rows (Intervalo.single d) [] = rows.map coerceTipo :=
  ⟨rfl, rfl, rfl⟩

/-- C2: the dashboard renders three pairwise distinguishable states — the
"Sem dados." info when the store is empty, the zero-total KPI row with the
"Nenhum dado encontrado." warning when records exist but the filters leave
none, and the full content otherwise; in particular the filtered-to-empty
output differs from any output of a non-empty filtered set whose totals
happen to be zero. -/
theorem C2_no_data_states (rows : List RecordRow) (intervalo : Intervalo)
    (filtro_tags : List String) :
    (rows = [] → aba_dash rows intervalo filtro_tags = DashOutput.semDados) ∧
    (rows ≠ [] → filteredRows rows intervalo filtro_tags = [] →
      aba_dash rows intervalo filtro_tags
        = DashOutput.dashboard 0 0 0 DashBody.nenhumDado) ∧
    (rows ≠ [] → filteredRows rows intervalo filtro_tags ≠ [] →
      aba_dash rows intervalo filtro_tags
        = DashOutput.dashboard
            (total_rec (filteredRows rows intervalo filtro_tags))
            (total_desp (filteredRows rows intervalo filtro_tags))
            (saldo (filteredRows rows intervalo filtro_tags))
            (DashBody.content (extrato (filteredRows rows intervalo filtro_tags)))) ∧
    (∀ a b c body, DashOutput.semDados ≠ DashOutput.dashboard a b c body) ∧
    (∀ a b c l, DashOutput.dashboard a b c DashBody.nenhumDado
      ≠ DashOutput.dashboard 0 0 0 (DashBody.content l)) := by
  refine ⟨?_, ?_, ?_, ?_, ?_⟩
  · rintro rfl
    rfl
  · intro hne hemp
    simp [aba_dash, isEmpty_false_of_ne_nil hne, hemp, total_rec, total_desp,
      saldo, df_rec, df_desp]
  · intro hne hne2
    simp [aba_dash, isEmpty_false_of_ne_nil hne, isEmpty_false_of_ne_nil hne2]
  · intro a b c body
    simp
  · intro a b c l
    simp

/-- A concrete record dated outside the C2 witness period. -/
def C2row : RecordRow :=
  { data := Date.mk 2024 5 1, descricao := "fora", categoria := "Lazer",
    valor := 50, tipo := some "Despesa", tags := TagsField.list [] }

/-- A concrete complete period that excludes `C2row`. -/
def C2intervalo : Intervalo :=
  Intervalo.range (Date.mk 2024 1 1) (Date.mk 2024 1 31)

/-- Witness for C2: the empty store renders "Sem dados.", and a store
whose single record is filtered out renders the zero-total dashboard with
the "Nenhum dado encontrado." body. -/
theorem C2_no_data_states_witness :
    aba_dash [] (Intervalo.single (Date.mk 2024 1 1)) [] = DashOutput.semDados ∧
    aba_dash [C2row] C2intervalo []
      = DashOutput.dashboard 0 0 0 DashBody.nenhumDado :=
  ⟨(C2_no_data_states [] (Intervalo.single (Date.mk 2024 1 1)) []).1 rfl,
   (C2_no_data_states [C2row] C2intervalo []).2.1
     (List.cons_ne_nil _ _) rfl⟩

/-- The summed stored amounts of one submission: the per-installment
rounded share times the number of installments. -/
lemma sum_valor_buildDocs (f : FormInput) (a : ℚ) (id_grupo : String) :
    ((buildDocs f a id_grupo).map (fun d => d.valor)).sum
      = (f.qtd_parcelas : ℚ) * round2 (a / (f.qtd_parcelas : ℚ)) := by
  simp only [buildDocs, List.map_map]
  show ((List.range f.qtd_parcelas).map
    (fun _ => round2 (a / (f.qtd_parcelas : ℚ)))).sum = _
  rw [sum_map_const, List.length_range]

/-- C5: a valid submission with `N` installments writes exactly `N`
documents sharing the supplied group identifier; the `i`-th document (0
based) carries `parcela_atual = i+1`, `total_parcelas = N`, the input date
advanced by `i` calendar months, and the description suffixed with
`" (i+1/N)"` when `N > 1` and unsuffixed when `N == 1`. -/
theorem C5_installment_records (f : FormInput) (a : ℚ) (id_grupo : String)
    (hA : f.valor_total = some a) :
    (docsOf (form_submit f id_grupo)).length = f.qtd_parcelas ∧
    (∀ d ∈ docsOf (form_submit f id_grupo),
      d.group_id = id_grupo ∧ d.total_parcelas = f.qtd_parcelas) ∧
    (∀ i, i < f.qtd_parcelas →
      (docsOf (form_submit f id_grupo))[i]? = some
        { data := addMonths f.data_mov i
          descricao :=
            if f.qtd_parcelas > 1 then
              f.descricao ++ " (" ++ toString (i + 1) ++ "/"
                ++ toString f.qtd_parcelas ++ ")"
            else f.descricao
          categoria := f.categoria
          valor := round2 (a / (f.qtd_parcelas : ℚ))
          tipo := if f.eh_despesa then "Despesa" else "Receita"
          pagamento := f.forma_pagamento
          parcela_atual := i + 1
          total_parcelas := f.qtd_parcelas
          group_id := id_grupo
          tags := f.tags_selecionadas }) := by
  simp only [form_submit, hA, docsOf]
  refine ⟨by simp [buildDocs], ?_, ?_⟩
  · intro d hd
    simp only [buildDocs, List.mem_map, List.mem_range] at hd
    obtain ⟨i, hi, rfl⟩ := hd
    exact ⟨rfl, rfl⟩
  · intro i hi
    simp [buildDocs, List.getElem?_map, List.getElem?_range, hi]

/-- A concrete three-installment credit expense of total 300. -/
def formParcelado : FormInput :=
  { data_mov := Date.mk 2024 1 15, valor_total := some 300,
    descricao := "Mercado", categoria := "Mercado", tags_selecionadas := [],
    eh_despesa := true, forma_pagamento := "Crédito", qtd_parcelas := 3 }

/-- Witness for C5 at the concrete three-installment submission. -/
theorem C5_installment_records_witness :
    (docsOf (form_submit formParcelado "gid")).length = formParcelado.qtd_parcelas :=
  (C5_installment_records formParcelado 300 "gid" rfl).1

/-- C4: every document of a valid submission stores
`round2 (total / count)`, and the stored amounts sum to the total within
`0.01` per installment. -/
theorem C4_rounded_installments (f : FormInput) (a : ℚ) (id_grupo : String)
    (hA : f.valor_total = some a) (hN : 1 ≤ f.qtd_parcelas) :
    (∀ d ∈ docsOf (form_submit f id_grupo),
      d.valor = round2 (a / (f.qtd_parcelas : ℚ))) ∧
    |((docsOf (form_submit f id_grupo)).map (fun d => d.valor)).sum - a|
      ≤ (f.qtd_parcelas : ℚ) * (1 / 100) := by
  have hQ : (0 : ℚ) < (f.qtd_parcelas : ℚ) := by exact_mod_cast hN
  constructor
  · intro d hd
    simp only [form_submit, hA, docsOf, buildDocs, List.mem_map,
      List.mem_range] at hd
    obtain ⟨i, hi, rfl⟩ := hd
    rfl
  · have hsum : ((docsOf (form_submit f id_grupo)).map (fun d => d.valor)).sum
        = (f.qtd_parcelas : ℚ) * round2 (a / (f.qtd_parcelas : ℚ)) := by
      simp only [form_submit, hA, docsOf]
      exact sum_valor_buildDocs f a id_grupo
    rw [hsum]
    have hkey : (f.qtd_parcelas : ℚ) * round2 (a / (f.qtd_parcelas : ℚ)) - a
        = (f.qtd_parcelas : ℚ)
          * (round2 (a / (f.qtd_parcelas : ℚ)) - a / (f.qtd_parcelas : ℚ)) := by
      field_simp
      ring
    rw [hkey, abs_mul, abs_of_pos hQ]
    calc (f.qtd_parcelas : ℚ)
          * |round2 (a / (f.qtd_parcelas : ℚ)) - a / (f.qtd_parcelas : ℚ)|
        ≤ (f.qtd_parcelas : ℚ) * (1 / 200) :=
          mul_le_mul_of_nonneg_left (round2_err _) (le_of_lt hQ)
      _ ≤ (f.qtd_parcelas : ℚ) * (1 / 100) :=
          mul_le_mul_of_nonneg_left (by norm_num) (le_of_lt hQ)

/-- Witness for C4: the three stored 100.00 installments of a 300 total
differ from the total by at most 3 cents. -/
theorem C4_rounded_installments_witness :
    |((docsOf (form_submit formParcelado "gid")).map (fun d => d.valor)).sum - 300|
      ≤ (formParcelado.qtd_parcelas : ℚ) * (1 / 100) :=
  (C4_rounded_installments formParcelado 300 "gid" rfl (by decide)).2

/-- A concrete submission with amount `0.0` — accepted by the form, whose
`st.number_input` only enforces `min_value=0.0`, and not caught by the
`valor_total is None` check. -/
def C3form : FormInput :=
  { data_mov := Date.mk 2024 1 15, valor_total := some 0, descricao := "x",
    categoria := "c", tags_selecionadas := [], eh_despesa := true,
    forma_pagamento := "Pix", qtd_parcelas := 1 }

/-- The document the `C3form` submission writes. -/
def C3doc : Documento :=
  { data := Date.mk 2024 1 15, descricao := "x", categoria := "c",
    valor := 0, tipo := "Despesa", pagamento := "Pix", parcela_atual := 1,
    total_parcelas := 1, group_id := "g", tags := [] }

/-- Evaluation of the `C3form` submission. -/
lemma C3_docs_eval : docsOf (form_submit C3form "g") = [C3doc] := by
  simp [C3form, C3doc, form_submit, docsOf, buildDocs, List.range_succ,
    addMonths, daysInMonth, isLeap]
  norm_num [round2, round_eq]

/-- C3 counterexample: the amount-zero submission results in a write of
exactly one document whose stored `valor` is not strictly positive. -/
theorem C3_counterexample :
    (docsOf (form_submit C3form "g")).length = 1 ∧
    ∃ d ∈ docsOf (form_submit C3form "g"), ¬ (0 < d.valor) := by
  refine ⟨by rw [C3_docs_eval]; rfl, C3doc, ?_, ?_⟩
  · rw [C3_docs_eval]
    exact List.mem_singleton_self _
  · simp [C3doc]

/-- C3 as amended: every document written by a submission whose amount is
present and nonnegative (which is all the widget admits) stores a
nonnegative `valor`. -/
theorem C3_amended_valor_nonneg (f : FormInput) (a : ℚ) (id_grupo : String)
    (hA : f.valor_total = some a) (h0 : 0 ≤ a) :
    ∀ d ∈ docsOf (form_submit f id_grupo), 0 ≤ d.valor := by
  intro d hd
  simp only [form_submit, hA, docsOf, buildDocs, List.mem_map,
    List.mem_range] at hd
  obtain ⟨i, hi, rfl⟩ := hd
  exact round2_nonneg (div_nonneg h0 (Nat.cast_nonneg _))

/-- Witness for the amended C3 at the concrete zero-amount submission. -/
theorem C3_amended_valor_nonneg_witness : 0 ≤ C3doc.valor :=
  C3_amended_valor_nonneg C3form 0 "g" rfl le_rfl C3doc
    (by rw [C3_docs_eval]; exact List.mem_singleton_self _)

/-- C6: with a non-empty tag filter active, a record passes the filter if
and only if it is in the frame and its `tags` value is a proper list whose
elements meet the filter set; a record whose `tags` is missing or not
list-shaped is (errorlessly) excluded. -/
theorem C6_tag_filter_iff (filtro_tags : List String) (hf : filtro_tags ≠ [])
    (rows : List RecordRow) (r : RecordRow) :
    r ∈ applyTagFilter filtro_tags rows ↔
      r ∈ rows ∧ ∃ l, r.tags = TagsField.list l ∧ ∃ x ∈ l, x ∈ filtro_tags := by
  have hne : filtro_tags.isEmpty = false := isEmpty_false_of_ne_nil hf
  rw [applyTagFilter, if_neg (by simp [hne]), List.mem_filter]
  refine and_congr_right fun _ => ?_
  cases htags : r.tags with
  | notList => simp [check_tags]
  | list l => simp [check_tags, List.any_eq_true]

/-- A concrete record carrying the tags `mercado` and `casa`. -/
def C6row : RecordRow :=
  { data := Date.mk 2024 1 1, descricao := "a", categoria := "c", valor := 5,
    tipo := some "Despesa", tags := TagsField.list ["mercado", "casa"] }

/-- Witness for C6: the record with tag `mercado` passes the `["mercado"]`
filter. -/
theorem C6_tag_filter_iff_witness :
    C6row ∈ applyTagFilter ["mercado"] [C6row] :=
  (C6_tag_filter_iff ["mercado"] (List.cons_ne_nil _ _) [C6row] C6row).mpr
    ⟨List.mem_singleton_self _, ["mercado", "casa"], rfl,
      "mercado", List.mem_cons_self _ _, List.mem_singleton_self _⟩

/-- C7: a record lacking `tipo` that survives both filters is coerced to
`Despesa`: appended to the frame it raises the expense total and its
category's slice of the expense breakdown by its amount, and leaves the
income total unchanged. -/
theorem C7_missing_tipo_counted_as_expense (ts : List RecordRow)
    (intervalo : Intervalo) (filtro_tags : List String) (r : RecordRow)
    (h : r.tipo = none)
    (hd : applyDateFilter intervalo [coerceTipo r] = [coerceTipo r])
    (ht : applyTagFilter filtro_tags [coerceTipo r] = [coerceTipo r]) :
    (coerceTipo r).tipo = some "Despesa" ∧
    filteredRows (ts ++ [r]) intervalo filtro_tags
      = filteredRows ts intervalo filtro_tags ++ [coerceTipo r] ∧
    total_desp (filteredRows (ts ++ [r]) intervalo filtro_tags)
      = total_desp (filteredRows ts intervalo filtro_tags) + r.valor ∧
    total_rec (filteredRows (ts ++ [r]) intervalo filtro_tags)
      = total_rec (filteredRows ts intervalo filtro_tags) ∧
    catTotal (filteredRows (ts ++ [r]) intervalo filtro_tags) r.categoria
      = catTotal (filteredRows ts intervalo filtro_tags) r.categoria + r.valor := by
  have hc : (coerceTipo r).tipo = some "Despesa" := by simp [coerceTipo, h]
  have hfr : filteredRows (ts ++ [r]) intervalo filtro_tags
      = filteredRows ts intervalo filtro_tags ++ [coerceTipo r] := by
    rw [filteredRows_append, hd, ht]
  refine ⟨hc, hfr, ?_, ?_, ?_⟩
  · rw [hfr]
    unfold total_desp df_desp
    rw [List.filter_append, List.map_append, List.sum_append]
    simp [List.filter_cons, hc, coerceTipo, h]
  · rw [hfr]
    unfold total_rec df_rec
    rw [List.filter_append, List.map_append, List.sum_append]
    simp [List.filter_cons, hc]
  · rw [hfr]
    unfold catTotal df_desp
    rw [List.filter_append, List.filter_append, List.map_append, List.sum_append]
    simp [List.filter_cons, hc, coerceTipo, h]

/-- A concrete legacy record with no `tipo` field. -/
def C7row : RecordRow :=
  { data := Date.mk 2024 3 1, descricao := "antigo", categoria := "Mercado",
    valor := 7, tipo := none, tags := TagsField.list [] }

/-- Witness for C7: appending the legacy record raises the expense total
by its amount. -/
theorem C7_missing_tipo_counted_as_expense_witness :
    total_desp (filteredRows ([] ++ [C7row]) (Intervalo.single (Date.mk 2024 1 1)) [])
      = total_desp (filteredRows [] (Intervalo.single (Date.mk 2024 1 1)) [])
        + C7row.valor :=
  (C7_missing_tipo_counted_as_expense [] (Intervalo.single (Date.mk 2024 1 1))
    [] C7row rfl rfl rfl).2.2.1

/-- An expense dated 31 January 2024. -/
def C1r1 : RecordRow :=
  { data := Date.mk 2024 1 31, descricao := "compra a", categoria := "cat",
    valor := 10, tipo := some "Despesa", tags := TagsField.list [] }

/-- An expense dated 15 February 2024 — chronologically later than
`C1r1`. -/
def C1r2 : RecordRow :=
  { data := Date.mk 2024 2 15, descricao := "compra b", categoria := "cat",
    valor := 20, tipo := some "Despesa", tags := TagsField.list [] }

/-- A complete period containing both C1 records. -/
def C1intervalo : Intervalo :=
  Intervalo.range (Date.mk 2024 1 1) (Date.mk 2024 12 31)

/-- C1 evaluated at the failing input: the extrato lists the
31 January row before the 15 February row — because `sort_values` runs on
the already-`dd/mm/yyyy`-formatted string column — even though the
31 January row has the strictly earlier calendar date, so the listing is
not sorted by calendar date descending. -/
theorem C1_extrato_not_date_descending :
    (extrato (filteredRows [C1r1, C1r2] C1intervalo [])).map (fun e => e.data)
      = [formatDate C1r1.data, formatDate C1r2.data] ∧
    formatDate C1r1.data = "31/01/2024" ∧
    formatDate C1r2.data = "15/02/2024" ∧
    dateKey C1r1.data < dateKey C1r2.data := by
  refine ⟨?_, by decide, by decide, by decide⟩
  decide

end Financas
